import Mathlib

/-!
Verification development for the experiment orchestration scripts of the
Compression-Comps repository.  The Python sources `run_experiments.py`
(the chunked variant) and `run_experiments_full.py` (the full variant)
are shallowly embedded below: machine floats are modelled as exact
rationals (the codec's stdout protocol carries decimal literals), the
`float('nan')` sentinel of the full variant gets its own constructor,
stateful orchestration is modelled by passing invocation outcomes
explicitly, and Python exceptions become `Except` values.
-/

/- ---------------------------------------------------------------- -/
/- Basic helpers shared by both scripts                              -/
/- ---------------------------------------------------------------- -/

/-- Character class `[a-z_]` of the timing key regex in `parse_output`. -/
def isKeyChar (c : Char) : Bool := ('a' ≤ c && c ≤ 'z') || c == '_'

/-- Character class `[0-9.+-eE]` of the timing value regex in `parse_output`. -/
def isValChar (c : Char) : Bool :=
  ('0' ≤ c && c ≤ '9') || c == '.' || c == '+' || c == '-' || c == 'e' || c == 'E'

/-- Numeric value of a digit character. -/
def digToNat (c : Char) : ℕ := c.toNat - '0'.toNat

/-- Value of a digit string read left to right, as produced by `int(...)`
on the integer part of a decimal literal. -/
def digitsVal (ds : List Char) : ℕ := ds.foldl (fun acc c => acc * 10 + digToNat c) 0

/-- Embeds Python `float(s)` on the decimal literals of the codec's stdout
protocol: optional sign, digits with an optional fractional part, optional
exponent.  (The special literals `nan`/`inf` never occur in the protocol
and are rejected.)  A string outside the grammar raises `ValueError`,
modelled as `.error`. -/
def pyFloat (s : String) : Except String ℚ :=
  let cs := s.data
  let sgn : ℚ := match cs with
    | '-' :: _ => -1
    | _ => 1
  let cs := match cs with
    | '+' :: r => r
    | '-' :: r => r
    | r => r
  let ip := cs.takeWhile Char.isDigit
  let cs := cs.dropWhile Char.isDigit
  let fp := match cs with
    | '.' :: r => r.takeWhile Char.isDigit
    | _ => []
  let cs := match cs with
    | '.' :: r => r.dropWhile Char.isDigit
    | r => r
  if ip.isEmpty && fp.isEmpty then .error ("could not convert string to float: " ++ s)
  else
    let base : ℚ := (digitsVal ip : ℚ) + (digitsVal fp : ℚ) / ((10 : ℚ) ^ fp.length)
    match cs with
    | [] => .ok (sgn * base)
    | e :: r =>
      if e == 'e' || e == 'E' then
        let esgn : ℤ := match r with
          | '-' :: _ => -1
          | _ => 1
        let r := match r with
          | '+' :: r2 => r2
          | '-' :: r2 => r2
          | r2 => r2
        let ed := r.takeWhile Char.isDigit
        let rest := r.dropWhile Char.isDigit
        if ed.isEmpty || !rest.isEmpty then
          .error ("could not convert string to float: " ++ s)
        else
          .ok (sgn * base * (10 : ℚ) ^ (esgn * (digitsVal ed : ℤ)))
      else .error ("could not convert string to float: " ++ s)

/-- Sequencing of a fallible conversion over a list, as done by the Python
comprehensions and loops that convert every field with `float(...)`: the
first raised `ValueError` aborts the whole computation. -/
def mapExcept (f : α → Except String β) : List α → Except String (List β)
  | [] => .ok []
  | a :: l =>
    match f a with
    | .error e => .error e
    | .ok b =>
      match mapExcept f l with
      | .error e => .error e
      | .ok bs => .ok (b :: bs)

/- ---------------------------------------------------------------- -/
/- Output parser of run_experiments.py (chunked variant)             -/
/- ---------------------------------------------------------------- -/

/-- ASCII lowercasing, embedding `str.lower()` (the scripts only meet
ASCII output). -/
def pyLower (s : String) : String := String.mk (s.data.map Char.toLower)

/-- Test of `parse_output` line 60: the stripped line opens and closes
with parens. -/
def isParenLine (l : String) : Bool := l.startsWith "(" && l.endsWith ")"

/-- Test of `parse_output` line 62, matching a line whose lowercase form
begins with the times prefix (the second disjunct of the Python condition
is subsumed by the first). -/
def isTimesLine (l : String) : Bool := (pyLower l).startsWith "times (ms):"

/-- The Python scanning loop of lines 59-63 keeps the last matching
element. -/
def lastWith (p : α → Bool) (l : List α) : Option α :=
  l.foldl (fun acc x => if p x then some x else acc) none

/-- Line normalization of `parse_output` line 54: strip every line and
drop the lines that are left empty. -/
def cleanedOf (rawLines : List String) : List String :=
  (rawLines.map String.trim).filter (fun l => !l.isEmpty)

/-- Lines 56-70 of `run_experiments.py`: the last parenthesized line wins;
if none exists the whole (stripped) output is tried. -/
def findTupleLine (output : String) (lines : List String) : Option String :=
  match lastWith isParenLine lines with
  | some t => some t
  | none => if isParenLine output then some output else none

/-- Embeds the slice t[1:-1]: drop the opening and closing character. -/
def innerStr (t : String) : String := String.mk ((t.data.drop 1).dropLast)

/-- Lines 73-76: optionally drop the surrounding parentheses, split on
commas, strip every field. -/
def tupleFields (t : String) : List String :=
  let t' := if isParenLine t then innerStr t else t
  (t'.splitOn ",").map String.trim

/-- Lines 73-86: the metrics tuple must have exactly 5 comma-separated
fields, each a decimal number, otherwise `ValueError` is raised. -/
def parseTuple (t : String) : Except String (ℚ × ℚ × ℚ × ℚ × ℚ) :=
  let parts := tupleFields t
  if parts.length = 5 then
    match parts with
    | [p0, p1, p2, p3, p4] =>
      match pyFloat p0, pyFloat p1, pyFloat p2, pyFloat p3, pyFloat p4 with
      | .ok a, .ok b, .ok c, .ok d, .ok e => .ok (a, b, c, d, e)
      | _, _, _, _, _ => .error ("Could not parse metric values: " ++ t)
    | _ => .error ("Expected 5 metric values, got " ++ toString parts.length ++ ": " ++ t)
  else .error ("Expected 5 metric values, got " ++ toString parts.length ++ ": " ++ t)

/-- Line 95 preprocessing: the times line with every paren character
replaced by a space. -/
def deparen (cs : List Char) : List Char :=
  cs.map (fun c => if c == '(' || c == ')' then ' ' else c)

theorem length_dropWhile_le (p : α → Bool) : ∀ l : List α, (l.dropWhile p).length ≤ l.length := by
  intro l
  induction l with
  | nil => simp [List.dropWhile]
  | cons a t ih =>
    by_cases h : p a = true
    · simp only [List.dropWhile, h]
      exact Nat.le_succ_of_le ih
    · simp [List.dropWhile, h]

theorem scan_step_dec {cs cs2 : List Char} (h : cs.dropWhile isKeyChar = '=' :: cs2) :
    (cs2.dropWhile isValChar).length < cs.length + 1 := by
  have h1 : (cs2.dropWhile isValChar).length ≤ cs2.length := length_dropWhile_le _ _
  have h2 : ('=' :: cs2).length ≤ cs.length := h ▸ length_dropWhile_le _ _
  simp only [List.length_cons] at h2
  omega

/-- Scanner equivalent to the findall call of line 95, whose pattern is
a nonempty key-class run, an equals sign and a nonempty value-class run:
it emits leftmost non-overlapping matches.  (Backtracking inside `[a-z_]+` can never produce a
match that the maximal run misses, because any shorter key run is
followed by a key character, not `=`.) -/
def scanKVs : List Char → List (String × String)
  | [] => []
  | c :: cs =>
    if isKeyChar c then
      match h : cs.dropWhile isKeyChar with
      | '=' :: cs2 =>
        let v := cs2.takeWhile isValChar
        if v.isEmpty then scanKVs cs
        else (String.mk (c :: cs.takeWhile isKeyChar), String.mk v) :: scanKVs (cs2.dropWhile isValChar)
      | _ => scanKVs cs
    else scanKVs cs
termination_by l => l.length
decreasing_by
  all_goals simp only [List.length_cons]
  all_goals try omega
  exact scan_step_dec (by assumption)

/-- Python dict building and lookup: in the dict comprehension at line
96 the last binding of a key wins. -/
def lookupLast (kvs : List (String × ℚ)) (k : String) : Option ℚ :=
  kvs.foldl (fun acc kv => if kv.1 == k then some kv.2 else acc) none

/-- Lines 91-102: find the timing line, extract its `key=value` pairs and
convert every value with `float` (an unparseable value raises, aborting
`parse_output`).  No timing line gives an empty table, so every timing
field comes out absent. -/
def timesOf (lines : List String) : Except String (List (String × ℚ)) :=
  match lastWith isTimesLine lines with
  | none => .ok []
  | some tl => mapExcept (fun kv => (pyFloat kv.2).map (fun q => (kv.1, q))) (scanKVs (deparen tl.data))

/-- Result of `parse_output`: the five metrics of the 5-field tuple plus
the six optional fine-grained timings (`None` when not reported). -/
structure ParseOut where
  mse : ℚ
  psnr : ℚ
  original_entropy : ℚ
  transformed_entropy : ℚ
  quantized_entropy : ℚ
  encode_ms : Option ℚ
  quant_ms : Option ℚ
  entropy_enc_ms : Option ℚ
  entropy_dec_ms : Option ℚ
  dequant_ms : Option ℚ
  inverse_ms : Option ℚ
deriving DecidableEq, Repr

/-- Body of `parse_output` (lines 52-105) after the initial `strip`, taken
over the raw line list so that line handling is explicit. -/
def parseCore (output : String) (rawLines : List String) : Except String ParseOut :=
  let lines := cleanedOf rawLines
  match findTupleLine output lines with
  | none => .error ("Could not find metrics tuple in output: " ++ output)
  | some t =>
    match parseTuple t with
    | .error e => .error e
    | .ok (mse, psnr, oe, te, qe) =>
      match timesOf lines with
      | .error e => .error e
      | .ok kvs =>
        .ok { mse := mse, psnr := psnr, original_entropy := oe,
              transformed_entropy := te, quantized_entropy := qe,
              encode_ms := lookupLast kvs "encode",
              quant_ms := lookupLast kvs "quant",
              entropy_enc_ms := lookupLast kvs "entropy_enc",
              entropy_dec_ms := lookupLast kvs "entropy_dec",
              dequant_ms := lookupLast kvs "dequant",
              inverse_ms := lookupLast kvs "inverse" }

/-- Embeds `parse_output` of `run_experiments.py`: strip the output, split it
into lines and run the core parser. -/
def parse_output (raw : String) : Except String ParseOut :=
  parseCore raw.trim (raw.trim.splitOn "\n")

/-- The tuple line `parse_output` settles on for a given raw stdout. -/
def tupleOf (raw : String) : Option String :=
  findTupleLine raw.trim (cleanedOf (raw.trim.splitOn "\n"))

/- ---------------------------------------------------------------- -/
/- Output parsing of run_experiments_full.py (full variant)          -/
/- ---------------------------------------------------------------- -/

/-- A paren character, for `str.strip('()')`. -/
def isParenChar (c : Char) : Bool := c == '(' || c == ')'

/-- Embeds the Python strip call with the paren set at line 77: remove
every leading and trailing character drawn from the set. -/
def pyStripParens (s : String) : String :=
  String.mk (((s.data.dropWhile isParenChar).reverse.dropWhile isParenChar).reverse)

/-- The comma-separated fields `process_image` obtains at line 80 of
`run_experiments_full.py`. -/
def fullFields (raw : String) : List String := (pyStripParens raw.trim).splitOn ","

/-- Lines 70-86 of `run_experiments_full.py`: the whole stripped stdout
must be one parenthesized tuple; every field is converted with `float`
first, then the count is checked against 6. -/
def parseFull (raw : String) : Except String (List ℚ) :=
  let out := raw.trim
  if out.startsWith "(" && out.endsWith ")" then
    match mapExcept (fun v => pyFloat v.trim) (fullFields raw) with
    | .error e => .error e
    | .ok vals =>
      if vals.length = 6 then .ok vals
      else .error ("Expected 6 output values, but found " ++ toString vals.length ++ ".")
  else .error ("Output format error: Expected parenthesized tuple but got: " ++ out)

/- ---------------------------------------------------------------- -/
/- Data model: tasks, invocation outcomes, result records            -/
/- ---------------------------------------------------------------- -/

/-- What one `subprocess.run` call of the external codec came to: a
completed process with its exit code and captured streams, the 300 s
timeout, or any other exception raised while invoking. -/
inductive InvocationOutcome where
  | completed (exitCode : ℤ) (stdout : String) (stderr : String)
  | timedOut
  | raised (msg : String)
deriving DecidableEq, Repr

/-- A task of the chunked variant: `(transform, dataset_name, image_path)`
as appended at line 204 of `run_experiments.py`. -/
structure ChunkTask where
  transform : String
  dataset : String
  image_path : String
deriving DecidableEq, Repr

/-- A result dict of the chunked variant.  Keys that a branch leaves out
of the Python dict (the timing keys of every error record) are normalized
to `None` by `row.get(k, None)` before writing (lines 258-262), so they
are modelled as `none` directly. -/
structure ChunkRecord where
  dataset : String
  image_path : String
  transform : String
  mse : Option ℚ
  psnr : Option ℚ
  original_entropy : Option ℚ
  transformed_entropy : Option ℚ
  quantized_entropy : Option ℚ
  encode_ms : Option ℚ := none
  quant_ms : Option ℚ := none
  entropy_enc_ms : Option ℚ := none
  entropy_dec_ms : Option ℚ := none
  dequant_ms : Option ℚ := none
  inverse_ms : Option ℚ := none
  error : Option String
deriving DecidableEq, Repr

/-- Embeds `Path(image_path).parent.name`: the last directory component of the
path, or the empty string for a bare file name. -/
def parentName (p : String) : String := ((p.splitOn "/").dropLast).getLastD ""

/-- Embeds `run_pipeline` of `run_experiments.py` (lines 107-181), with the
subprocess interaction abstracted into the `InvocationOutcome` argument:
a non-zero exit yields an error record carrying the stripped stderr, a
successful exit hands stdout to `parse_output`, a timeout or any other
exception yields an error record with the exception text. -/
def run_pipeline (transform : String) (chunk_size : ℕ) (image_path : String)
    (outcome : InvocationOutcome) : ChunkRecord :=
  match outcome with
  | .completed code out err =>
    if code ≠ 0 then
      { dataset := parentName image_path, image_path := image_path, transform := transform,
        mse := none, psnr := none, original_entropy := none,
        transformed_entropy := none, quantized_entropy := none,
        error := some err.trim }
    else
      match parse_output out.trim with
      | .ok pr =>
        { dataset := parentName image_path, image_path := image_path, transform := transform,
          mse := some pr.mse, psnr := some pr.psnr,
          original_entropy := some pr.original_entropy,
          transformed_entropy := some pr.transformed_entropy,
          quantized_entropy := some pr.quantized_entropy,
          encode_ms := pr.encode_ms, quant_ms := pr.quant_ms,
          entropy_enc_ms := pr.entropy_enc_ms, entropy_dec_ms := pr.entropy_dec_ms,
          dequant_ms := pr.dequant_ms, inverse_ms := pr.inverse_ms,
          error := none }
      | .error e =>
        { dataset := parentName image_path, image_path := image_path, transform := transform,
          mse := none, psnr := none, original_entropy := none,
          transformed_entropy := none, quantized_entropy := none,
          error := some e }
  | .timedOut =>
      { dataset := parentName image_path, image_path := image_path, transform := transform,
        mse := none, psnr := none, original_entropy := none,
        transformed_entropy := none, quantized_entropy := none,
        error := some "Timeout" }
  | .raised msg =>
      { dataset := parentName image_path, image_path := image_path, transform := transform,
        mse := none, psnr := none, original_entropy := none,
        transformed_entropy := none, quantized_entropy := none,
        error := some msg }

/-- A Python float that may be the nan sentinel the full variant uses
for failed tasks. -/
inductive PFloat where
  | nan
  | num (q : ℚ)
deriving DecidableEq, Repr

/-- A task of the full variant: `(image_path, transform_type,
quantization_scale)`. -/
structure FullTask where
  image_path : String
  transform : String
  scale : ℤ
deriving DecidableEq, Repr

/-- A result of the full variant: the task identity plus the 6-element
metrics tuple.  There is no error field; failures are encoded as a tuple
of six `nan`s. -/
structure FullRecord where
  image_path : String
  transform : String
  scale : ℤ
  metrics : List PFloat
deriving DecidableEq, Repr

/-- Embeds `process_image` of `run_experiments_full.py` (lines 31-102):
`check=True` turns a non-zero exit into `CalledProcessError`; that, a
timeout, a parse `ValueError` or any other exception is caught and mapped
to the all-`nan` error tuple. -/
def process_image (tk : FullTask) (outcome : InvocationOutcome) : FullRecord :=
  match outcome with
  | .completed code out _ =>
    if code ≠ 0 then
      ⟨tk.image_path, tk.transform, tk.scale, List.replicate 6 .nan⟩
    else
      match parseFull out with
      | .ok vals => ⟨tk.image_path, tk.transform, tk.scale, vals.map PFloat.num⟩
      | .error _ => ⟨tk.image_path, tk.transform, tk.scale, List.replicate 6 .nan⟩
  | .timedOut => ⟨tk.image_path, tk.transform, tk.scale, List.replicate 6 .nan⟩
  | .raised _ => ⟨tk.image_path, tk.transform, tk.scale, List.replicate 6 .nan⟩

/-- Does an invocation or the subsequent parse fail for the chunked
variant?  (Non-zero exit, timeout, any exception, or `parse_output`
raising.) -/
def chunkFails (outcome : InvocationOutcome) : Bool :=
  match outcome with
  | .completed code out _ =>
    decide (code ≠ 0) || (match parse_output out.trim with | .ok _ => false | .error _ => true)
  | .timedOut => true
  | .raised _ => true

/-- Does an invocation or the subsequent parse fail for the full variant? -/
def fullFails (outcome : InvocationOutcome) : Bool :=
  match outcome with
  | .completed code out _ =>
    decide (code ≠ 0) || (match parseFull out with | .ok _ => false | .error _ => true)
  | .timedOut => true
  | .raised _ => true

/- ---------------------------------------------------------------- -/
/- Catalog, task generation and scheduling                           -/
/- ---------------------------------------------------------------- -/

/-- The transform list of `run_experiments.py`. -/
def TRANSFORMS : List String := ["SP", "HAAR"]

/-- Lexicographic order on string pairs, as Python compares the tuples
`(dataset, image_path)`. -/
def strPairLe (a b : String × String) : Prop :=
  a.1 < b.1 ∨ (a.1 = b.1 ∧ a.2 ≤ b.2)

instance : DecidableRel strPairLe := fun a b => by
  unfold strPairLe; infer_instance

instance : IsTotal (String × String) strPairLe where
  total a b := by
    rcases lt_trichotomy a.1 b.1 with h | h | h
    · exact Or.inl (Or.inl h)
    · rcases le_total a.2 b.2 with h2 | h2
      · exact Or.inl (Or.inr ⟨h, h2⟩)
      · exact Or.inr (Or.inr ⟨h.symm, h2⟩)
    · exact Or.inr (Or.inl h)

instance : IsTrans (String × String) strPairLe where
  trans a b c hab hbc := by
    rcases hab with h1 | ⟨h1, h1'⟩ <;> rcases hbc with h2 | ⟨h2, h2'⟩
    · exact Or.inl (h1.trans h2)
    · exact Or.inl (h2 ▸ h1)
    · exact Or.inl (h1 ▸ h2)
    · exact Or.inr ⟨h1.trans h2, h1'.trans h2'⟩

theorem strPairLe_antisymm {a b : String × String} (h1 : strPairLe a b) (h2 : strPairLe b a) :
    a = b := by
  rcases h1 with h1 | ⟨h1, h1'⟩ <;> rcases h2 with h2 | ⟨h2, h2'⟩
  · exact absurd h2 (lt_asymm h1)
  · exact absurd (h2 ▸ h1) (lt_irrefl b.1)
  · exact absurd (h1 ▸ h2) (lt_irrefl b.1)
  · exact Prod.ext h1 (le_antisymm h1' h2')

/-- A filesystem snapshot for the chunked variant's catalog scan: whether
`Datasets/` exists, and for each immediate subdirectory its name and the
`*.png` files it holds. -/
structure ChunkFS where
  rootExists : Bool
  datasets : List (String × List String)
deriving Repr

/-- Embeds `find_all_images` of `run_experiments.py` (lines 23-42): a missing
root prints a diagnostic and returns the empty list; otherwise every
dataset directory contributes one `(dataset_name, image_path)` pair per
image, and the pair list is sorted. -/
def find_all_images (fs : ChunkFS) : List (String × String) :=
  if fs.rootExists then
    List.insertionSort strPairLe (fs.datasets.flatMap fun d => d.2.map fun img => (d.1, img))
  else []

/-- Task enumeration of `main` (lines 200-204): transforms outer, images
inner. -/
def mkTasks (images : List (String × String)) : List ChunkTask :=
  TRANSFORMS.flatMap fun t => images.map fun di => ⟨t, di.1, di.2⟩

/-- The catalog gate of `main` (lines 192-204): an empty image catalog
aborts the run with exit code 1 before any task is built or scheduled. -/
def mainCatalogGate (fs : ChunkFS) : Except String (List ChunkTask) :=
  let images := find_all_images fs
  if images.length = 0 then .error "No images found. Exiting."
  else .ok (mkTasks images)

/-- Embeds `create_tasks` of `run_experiments_full.py` (lines 106-122): no
recursively found image raises `FileNotFoundError`; otherwise images
outer, transforms middle, scales inner. -/
def create_tasks (image_paths : List String) (transforms : List String)
    (scales : List ℤ) : Except String (List FullTask) :=
  if image_paths.isEmpty then
    .error "No .png files found recursively in directory"
  else
    .ok (image_paths.flatMap fun i => transforms.flatMap fun t => scales.map fun s => ⟨i, t, s⟩)

/-- The per-future `try`/`except` of `main` (lines 220-242): a future
whose `result()` raises is replaced by an error record built from the
task tuple's identity fields. -/
def collectOne (tk : ChunkTask) (fres : Except String ChunkRecord) : ChunkRecord :=
  match fres with
  | .ok r => r
  | .error e =>
    { dataset := tk.dataset, image_path := tk.image_path, transform := tk.transform,
      mse := none, psnr := none, original_entropy := none,
      transformed_entropy := none, quantized_entropy := none,
      error := some e }

/-- The records accumulated in `results_by_transform[t]`: the tasks of
transform `t`, in completion order `co`, each contributing exactly one
record. -/
def resultsFor (co : List ChunkTask) (fut : ChunkTask → Except String ChunkRecord)
    (t : String) : List ChunkRecord :=
  (co.filter (fun tk => tk.transform == t)).map (fun tk => collectOne tk (fut tk))

/- ---------------------------------------------------------------- -/
/- Summary statistics (_fmt_stats, lines 264-273)                    -/
/- ---------------------------------------------------------------- -/

/-- Zero-padded six-digit rendering of `n % 10^6`, the fractional part of
a `%.6f` format. -/
def pad6 (n : ℕ) : String :=
  String.mk [Nat.digitChar (n / 100000 % 10), Nat.digitChar (n / 10000 % 10),
             Nat.digitChar (n / 1000 % 10), Nat.digitChar (n / 100 % 10),
             Nat.digitChar (n / 10 % 10), Nat.digitChar (n % 10)]

/-- Floor of a nonnegative rational as a natural number. -/
def ratFloorNat (q : ℚ) : ℕ := q.num.toNat / q.den

/-- Embeds the fixed-point f-string rendering with format spec .6f: the
value rounded to six decimal places, fractional part zero-padded to six.
(CPython resolves exact ties by round-half-even on the binary value; the
tie rule is immaterial to every property stated here.) -/
def fmt6 (q : ℚ) : String :=
  let n : ℕ := ratFloorNat (|q| * 1000000 + 1 / 2)
  let sign : String := if q < 0 then "-" else ""
  sign ++ toString (n / 1000000) ++ "." ++ pad6 (n % 1000000)

/-- Embeds `statistics.mean`. -/
def pyMean (vals : List ℚ) : ℚ := vals.sum / vals.length

/-- Ascending numeric sort, as `statistics.median` performs internally. -/
def pySortVals (vals : List ℚ) : List ℚ := List.insertionSort (· ≤ ·) vals

/-- Embeds `statistics.median`: middle element for odd length, average of the two
middle elements for even length. -/
def pyMedian (vals : List ℚ) : ℚ :=
  let s := pySortVals vals
  let n := s.length
  if n % 2 = 1 then s.getD (n / 2) 0
  else (s.getD (n / 2 - 1) 0 + s.getD (n / 2) 0) / 2

/-- Embeds the call min(vals) for a list the caller has checked to be nonempty. -/
def pyMin (vals : List ℚ) : ℚ :=
  match vals with
  | [] => 0
  | v :: vs => vs.foldl min v

/-- Embeds the call max(vals) for a list the caller has checked to be nonempty. -/
def pyMax (vals : List ℚ) : ℚ :=
  match vals with
  | [] => 0
  | v :: vs => vs.foldl max v

/-- The sample variance `sum((x - mean)^2) / (n - 1)` underlying
`statistics.stdev`. -/
def sampleVariance (vals : List ℚ) : ℚ :=
  ((vals.map (fun v => (v - pyMean vals) ^ 2)).sum) / ((vals.length : ℚ) - 1)

/-- Square root at `10^-6` resolution: the integer square root of the
value scaled by `10^12`, scaled back.  This embeds `math.sqrt` to exactly
the precision the `%.6f` rendering of the statistic can observe. -/
def ratSqrt (q : ℚ) : ℚ := ((Nat.sqrt (ratFloorNat (q * 10 ^ 12)) : ℚ)) / 10 ^ 6

/-- The value `statistics.stdev(vals)` returns when it does not raise. -/
def stdevVal (vals : List ℚ) : ℚ := ratSqrt (sampleVariance vals)

/-- Embeds `statistics.stdev` itself: fewer than two data points raise
`StatisticsError`. -/
def pyStdev (vals : List ℚ) : Except String ℚ :=
  if vals.length < 2 then .error "stdev requires at least two data points"
  else .ok (stdevVal vals)

/-- Embeds `_fmt_stats` of `run_experiments.py` (lines 264-273): the empty list
renders as the empty string; otherwise the fixed six-field summary, with
the standard deviation guarded to `0.0` for a single sample. -/
def fmtStats (vals : List ℚ) : String :=
  if vals.isEmpty then ""
  else
    let n := vals.length
    let sd := if 1 < n then stdevVal vals else 0
    "count=" ++ toString n ++ "; mean=" ++ fmt6 (pyMean vals) ++ "; std=" ++ fmt6 sd ++
      "; min=" ++ fmt6 (pyMin vals) ++ "; median=" ++ fmt6 (pyMedian vals) ++
      "; max=" ++ fmt6 (pyMax vals)

/- ---------------------------------------------------------------- -/
/- CSV aggregation and writing                                       -/
/- ---------------------------------------------------------------- -/

/-- The sort key of `main` line 250: `(x["dataset"], x["image_path"])`. -/
def chunkKey (r : ChunkRecord) : String × String := (r.dataset, r.image_path)

/-- Record comparison used by `sorted(results, key=...)`. -/
def recordLe (a b : ChunkRecord) : Prop := strPairLe (chunkKey a) (chunkKey b)

instance : DecidableRel recordLe := fun a b => by
  unfold recordLe; infer_instance

instance : IsTotal ChunkRecord recordLe where
  total a b := IsTotal.total (r := strPairLe) _ _

instance : IsTrans ChunkRecord recordLe where
  trans _ _ _ hab hbc := Trans.trans (r := strPairLe) (s := strPairLe) hab hbc

/-- Stable sort of the chunked records, embedding Python `sorted`. -/
def pySortRecords (results : List ChunkRecord) : List ChunkRecord :=
  List.insertionSort recordLe results

/-- Rendering of one rational CSV cell.  It stands in for Python
`str(float)`; any injective rendering supports the properties stated
here. -/
def rq (q : ℚ) : String := toString q

/-- An optional metric cell: `csv.DictWriter` writes `None` as the empty
string. -/
def ro : Option ℚ → String
  | none => ""
  | some q => rq q

/-- The error cell: absent renders empty. -/
def rerr : Option String → String
  | none => ""
  | some s => s

/-- The fixed chunked-variant column list (line 253-257). -/
def chunkHeader : List String :=
  ["dataset", "image_path", "mse", "psnr", "original_entropy", "transformed_entropy",
   "quantized_entropy", "encode_ms", "quant_ms", "entropy_enc_ms", "entropy_dec_ms",
   "dequant_ms", "inverse_ms", "error"]

/-- One data row in header order. -/
def chunkRow (r : ChunkRecord) : List String :=
  [r.dataset, r.image_path, ro r.mse, ro r.psnr, ro r.original_entropy,
   ro r.transformed_entropy, ro r.quantized_entropy, ro r.encode_ms, ro r.quant_ms,
   ro r.entropy_enc_ms, ro r.entropy_dec_ms, ro r.dequant_ms, ro r.inverse_ms,
   rerr r.error]

/-- Python truthiness of the error cell as used by the error-count
comprehension at line 289: both None and the empty string count as no
error. -/
def pyTruthy : Option String → Bool
  | none => false
  | some s => !s.isEmpty

/-- A summary row for one of the five metric columns: the statistic lands
in its own column, every other cell is empty (missing dict keys are
written as the empty rest value). -/
def metricSummaryRow (name : String) (c2 c3 c4 c5 c6 : String) : List String :=
  ["SUMMARY", name, c2, c3, c4, c5, c6, "", "", "", "", "", "", ""]

/-- A timing summary row (lines 363-463): the code places the statistic
string in the `quantized_entropy` column and repeats it in the `error`
column, leaving the timing columns themselves empty. -/
def timingSummaryRow (name : String) (stat : String) : List String :=
  ["SUMMARY", name, "", "", "", "", stat, "", "", "", "", "", "", stat]

/-- The twelve summary rows appended after the data rows (lines 293-466),
computed over the sorted record list. -/
def summaryRows (results : List ChunkRecord) : List (List String) :=
  let total := results.length
  let errors := (results.filter (fun r => pyTruthy r.error)).length
  [["SUMMARY", "counts", "", "", "", "", "", "", "", "", "", "", "",
    "total=" ++ toString total ++ "; success=" ++ toString (total - errors) ++
      "; errors=" ++ toString errors],
   metricSummaryRow "mse" (fmtStats (results.filterMap (·.mse))) "" "" "" "",
   metricSummaryRow "psnr" "" (fmtStats (results.filterMap (·.psnr))) "" "" "",
   metricSummaryRow "original_entropy" "" "" (fmtStats (results.filterMap (·.original_entropy))) "" "",
   metricSummaryRow "transformed_entropy" "" "" "" (fmtStats (results.filterMap (·.transformed_entropy))) "",
   metricSummaryRow "quantized_entropy" "" "" "" "" (fmtStats (results.filterMap (·.quantized_entropy))),
   timingSummaryRow "encode_ms" (fmtStats (results.filterMap (·.encode_ms))),
   timingSummaryRow "quant_ms" (fmtStats (results.filterMap (·.quant_ms))),
   timingSummaryRow "entropy_enc_ms" (fmtStats (results.filterMap (·.entropy_enc_ms))),
   timingSummaryRow "entropy_dec_ms" (fmtStats (results.filterMap (·.entropy_dec_ms))),
   timingSummaryRow "dequant_ms" (fmtStats (results.filterMap (·.dequant_ms))),
   timingSummaryRow "inverse_ms" (fmtStats (results.filterMap (·.inverse_ms)))]

/-- The full per-transform CSV of the chunked variant (lines 247-471):
header, then the records sorted by `(dataset, image_path)`, then the
summary block computed from the sorted records. -/
def write_chunk_csv (results : List ChunkRecord) : List (List String) :=
  let sorted := pySortRecords results
  chunkHeader :: (sorted.map chunkRow ++ summaryRows sorted)

/-- CSV serialization: comma-joined cells, `\r\n` row terminator as the
`csv` module writes.  (Quoting never triggers on the cell values modelled
here.) -/
def renderCSV (rows : List (List String)) : String :=
  String.intercalate "\r\n" (rows.map (String.intercalate ",")) ++ "\r\n"

/-- Embeds str of the parent path on a relative slash-separated path. -/
def folderOf (p : String) : String :=
  let parts := p.splitOn "/"
  if parts.length ≤ 1 then "." else String.intercalate "/" parts.dropLast

/-- Embeds the name component of a slash-separated path. -/
def nameOf (p : String) : String := (p.splitOn "/").getLastD ""

/-- Rendering of a possibly-nan float cell, as str would produce. -/
def rpf : PFloat → String
  | .nan => "nan"
  | .num q => rq q

/-- The header of `experiment_results.csv`. -/
def fullHeader : List String :=
  ["folder_path", "file_name", "quantization_scale", "transform_type",
   "compression_ratio", "entropy_quantized", "mse", "psnr", "encoding_time", "decoding_time"]

/-- One data row of the full variant (lines 136-148). -/
def full_row (r : FullRecord) : List String :=
  [folderOf r.image_path, nameOf r.image_path, toString r.scale, r.transform] ++
    r.metrics.map rpf

/-- Embeds `write_results_to_csv` of `run_experiments_full.py` (lines 126-150):
header then one row per result, in the order the result list arrives —
no sorting. -/
def write_full_csv (results : List FullRecord) : List (List String) :=
  fullHeader :: results.map full_row

/-- Decidable equality for `Except`, used to evaluate the embedded
parsers on concrete inputs. -/
instance {ε α : Type} [DecidableEq ε] [DecidableEq α] : DecidableEq (Except ε α)
  | .error e, .error f =>
    if h : e = f then .isTrue (by rw [h]) else .isFalse (by simp [h])
  | .error _, .ok _ => .isFalse (by simp)
  | .ok _, .error _ => .isFalse (by simp)
  | .ok x, .ok y =>
    if h : x = y then .isTrue (by rw [h]) else .isFalse (by simp [h])

/-- Exactly-six-decimal-places shape of a formatted statistic: the string
ends in a dot followed by six digit characters. -/
def sixDec (x : String) : Prop :=
  ∃ ip fp, x = ip ++ "." ++ fp ∧ fp.length = 6 ∧ fp.data.all Char.isDigit = true

/- ---------------------------------------------------------------- -/
/- Helper lemmas                                                     -/
/- ---------------------------------------------------------------- -/

theorem mapExcept_ok_length {α β : Type} {f : α → Except String β} :
    ∀ {l : List α} {vs : List β}, mapExcept f l = .ok vs → vs.length = l.length := by
  intro l
  induction l with
  | nil => intro vs h; simp only [mapExcept, Except.ok.injEq] at h; simp [← h]
  | cons a t ih =>
    intro vs h
    simp only [mapExcept] at h
    cases hfa : f a with
    | error e => rw [hfa] at h; exact absurd h (by simp)
    | ok b =>
      rw [hfa] at h
      cases hft : mapExcept f t with
      | error e => rw [hft] at h; exact absurd h (by simp)
      | ok bs =>
        rw [hft] at h
        cases h
        simp [ih hft]

theorem digitChar_mod_isDigit (x : ℕ) : (Nat.digitChar (x % 10)).isDigit = true := by
  have h : x % 10 < 10 := Nat.mod_lt _ (by norm_num)
  revert h
  generalize x % 10 = m
  intro h
  interval_cases m <;> rfl

theorem pad6_length (n : ℕ) : (pad6 n).length = 6 := rfl

theorem pad6_all_digits (n : ℕ) : (pad6 n).data.all Char.isDigit = true := by
  simp only [pad6, List.all_cons, List.all_nil, Bool.and_true]
  simp [digitChar_mod_isDigit]

theorem fmt6_sixDec (q : ℚ) : sixDec (fmt6 q) :=
  ⟨(if q < 0 then "-" else "") ++ toString (ratFloorNat (|q| * 1000000 + 1 / 2) / 1000000),
   pad6 (ratFloorNat (|q| * 1000000 + 1 / 2) % 1000000), rfl, pad6_length _, pad6_all_digits _⟩

/- ---------------------------------------------------------------- -/
/- C7 and C10: summary statistic formatting                          -/
/- ---------------------------------------------------------------- -/

/-- C7: for every list of sample values the summary string is exactly
`count=<n>; mean=<m>; std=<s>; min=<lo>; median=<md>; max=<hi>` with six
decimal places on every numeric statistic, and the empty list renders as
the empty string — the digit-only decimal shape in particular excludes
`NaN`, and no case crashes. -/
theorem c7_fmt_stats_format :
    fmtStats [] = "" ∧
    ∀ vals : List ℚ, vals ≠ [] →
      ∃ m s lo md hi,
        fmtStats vals =
          "count=" ++ toString vals.length ++ "; mean=" ++ m ++ "; std=" ++ s ++
            "; min=" ++ lo ++ "; median=" ++ md ++ "; max=" ++ hi ∧
        sixDec m ∧ sixDec s ∧ sixDec lo ∧ sixDec md ∧ sixDec hi := by
  constructor
  · rfl
  · intro vals h
    refine ⟨fmt6 (pyMean vals), fmt6 (if 1 < vals.length then stdevVal vals else 0),
      fmt6 (pyMin vals), fmt6 (pyMedian vals), fmt6 (pyMax vals), ?_,
      fmt6_sixDec _, fmt6_sixDec _, fmt6_sixDec _, fmt6_sixDec _, fmt6_sixDec _⟩
    cases vals with
    | nil => exact absurd rfl h
    | cons a t => rfl

/-- Witness for C7 at the concrete sample list `[3/2, 2]`. -/
theorem c7_fmt_stats_format_witness :
    (([(3 : ℚ)/2, 2] : List ℚ) ≠ []) ∧
    (∃ m s lo md hi,
        fmtStats [(3 : ℚ)/2, 2] =
          "count=" ++ toString ([(3 : ℚ)/2, 2] : List ℚ).length ++ "; mean=" ++ m ++
            "; std=" ++ s ++ "; min=" ++ lo ++ "; median=" ++ md ++ "; max=" ++ hi ∧
        sixDec m ∧ sixDec s ∧ sixDec lo ∧ sixDec md ∧ sixDec hi) :=
  ⟨by simp, c7_fmt_stats_format.2 [(3 : ℚ)/2, 2] (by simp)⟩

/-- C10: on a single-sample list the formatter returns the well-formed
summary with the standard deviation rendered as `0.000000`, while
`statistics.stdev` itself would raise on that list — the guard makes the
raising branch unreachable. -/
theorem c10_single_sample (v : ℚ) :
    (pyStdev [v]).isOk = false ∧
    fmtStats [v] = "count=1; mean=" ++ fmt6 v ++ "; std=0.000000; min=" ++ fmt6 v ++
      "; median=" ++ fmt6 v ++ "; max=" ++ fmt6 v := by
  constructor
  · rfl
  · have hm : pyMean [v] = v := by simp [pyMean]
    have hmd : pyMedian [v] = v := by simp [pyMedian, pySortVals]
    unfold fmtStats
    simp only [List.isEmpty_cons, List.length_cons, List.length_nil, hm, hmd,
      Bool.false_eq_true, if_false]
    simp only [Nat.zero_add, show ¬((1 : ℕ) < 1) from by norm_num, if_false,
      show pyMin [v] = v from rfl, show pyMax [v] = v from rfl]
    rw [show (toString (1 : ℕ)) = "1" from rfl,
        show ("count=1; mean=" : String) = ("count=" ++ "1") ++ "; mean=" from by decide,
        show ("; std=0.000000; min=" : String) = ("; std=" ++ fmt6 0) ++ "; min=" from by
          with_unfolding_all decide]
    simp only [String.append_assoc]

/- ---------------------------------------------------------------- -/
/- C2: wrong tuple field count is a hard parse error                 -/
/- ---------------------------------------------------------------- -/

theorem parseTuple_wrong_count {t : String} (h : (tupleFields t).length ≠ 5) :
    parseTuple t =
      .error ("Expected 5 metric values, got " ++ toString (tupleFields t).length ++ ": " ++ t) := by
  unfold parseTuple
  simp only [if_neg h]

theorem parseCore_tuple_error {output : String} {rawLines : List String} {t e : String}
    (ht : findTupleLine output (cleanedOf rawLines) = some t)
    (hp : parseTuple t = .error e) : parseCore output rawLines = .error e := by
  unfold parseCore
  simp only [ht, hp]

/-- C2: a tuple line whose comma-separated field count differs from what
the calling variant expects (5 in the chunked variant, 6 in the full
variant) always makes the parse fail with an error — fields are never
truncated or padded. -/
theorem c2_field_count :
    (∀ raw t, tupleOf raw = some t → (tupleFields t).length ≠ 5 →
      ∃ e, parse_output raw = .error e) ∧
    (∀ raw, (fullFields raw).length ≠ 6 → ∃ e, parseFull raw = .error e) := by
  constructor
  · intro raw t ht hlen
    exact ⟨_, parseCore_tuple_error ht (parseTuple_wrong_count hlen)⟩
  · intro raw hlen
    unfold parseFull
    by_cases hs : (raw.trim.startsWith "(" && raw.trim.endsWith ")") = true
    · simp only [hs, if_pos]
      cases hm : mapExcept (fun v => pyFloat v.trim) (fullFields raw) with
      | error e => exact ⟨e, rfl⟩
      | ok vals =>
        have hv : vals.length ≠ 6 := by rw [mapExcept_ok_length hm]; exact hlen
        simp only [hm, hv, if_neg, if_false]
        exact ⟨_, rfl⟩
    · simp only [Bool.not_eq_true] at hs
      simp only [hs, Bool.false_eq_true, if_false]
      exact ⟨_, rfl⟩

/-- Witness for C2: a 4-field tuple in the chunked variant and a 7-field
tuple in the full variant are both rejected. -/
theorem c2_field_count_witness :
    (tupleOf "(1, 2, 3, 4)" = some "(1, 2, 3, 4)") ∧
    ((tupleFields "(1, 2, 3, 4)").length ≠ 5) ∧
    (∃ e, parse_output "(1, 2, 3, 4)" = .error e) ∧
    ((fullFields "(1, 2, 3, 4, 5, 6, 7)").length ≠ 6) ∧
    (∃ e, parseFull "(1, 2, 3, 4, 5, 6, 7)" = .error e) :=
  ⟨by with_unfolding_all decide, by with_unfolding_all decide,
   c2_field_count.1 "(1, 2, 3, 4)" "(1, 2, 3, 4)" (by with_unfolding_all decide)
     (by with_unfolding_all decide),
   by with_unfolding_all decide,
   c2_field_count.2 "(1, 2, 3, 4, 5, 6, 7)" (by with_unfolding_all decide)⟩

/- ---------------------------------------------------------------- -/
/- C3: the parser does not aggregate fine-grained timings            -/
/- ---------------------------------------------------------------- -/

set_option maxRecDepth 10000 in
set_option maxHeartbeats 1000000 in
/-- C3 counterexample: on a stdout whose `Times (ms):` line carries only
the fine-grained keys `quant=1.0 entropy_enc=2.0 entropy_dec=4.0
dequant=8.0 inverse=16.0`, the claim predicts an aggregate encode time of
`0+1+2 = 3` and decode time of `4+8+16 = 28`; the parser instead leaves
`encode_ms` absent and reports every key individually — no field of the
result holds either sum. -/
theorem c3_counterexample :
    parse_output "(1, 2, 3, 4, 5)\nTimes (ms): quant=1.0 entropy_enc=2.0 entropy_dec=4.0 dequant=8.0 inverse=16.0" =
      .ok ⟨1, 2, 3, 4, 5, none, some 1, some 2, some 4, some 8, some 16⟩ ∧
    (⟨1, 2, 3, 4, 5, none, some 1, some 2, some 4, some 8, some 16⟩ : ParseOut).encode_ms ≠
      some (0 + 1 + 2) := by
  constructor
  · with_unfolding_all decide
  · with_unfolding_all decide

/-- C3 amended: `parse_output` never aggregates timings: every timing
field of a successful parse equals the last value bound to its own key in
the `Times (ms):` line (and is absent when that key is absent), for every
input. -/
theorem c3_amended :
    ∀ raw r, parse_output raw = .ok r →
      ∃ kvs, timesOf (cleanedOf (raw.trim.splitOn "\n")) = .ok kvs ∧
        r.encode_ms = lookupLast kvs "encode" ∧
        r.quant_ms = lookupLast kvs "quant" ∧
        r.entropy_enc_ms = lookupLast kvs "entropy_enc" ∧
        r.entropy_dec_ms = lookupLast kvs "entropy_dec" ∧
        r.dequant_ms = lookupLast kvs "dequant" ∧
        r.inverse_ms = lookupLast kvs "inverse" := by
  intro raw r h
  unfold parse_output parseCore at h
  cases hft : findTupleLine raw.trim (cleanedOf (raw.trim.splitOn "\n")) with
  | none =>
    simp only [hft] at h
    exact absurd h (by simp)
  | some t =>
    simp only [hft] at h
    cases hpt : parseTuple t with
    | error e =>
      simp only [hpt] at h
      exact absurd h (by simp)
    | ok q =>
      obtain ⟨a, b, c, d, e⟩ := q
      simp only [hpt] at h
      cases htm : timesOf (cleanedOf (raw.trim.splitOn "\n")) with
      | error e2 =>
        simp only [htm] at h
        exact absurd h (by simp)
      | ok kvs =>
        simp only [htm, Except.ok.injEq] at h
        subst h
        exact ⟨kvs, rfl, rfl, rfl, rfl, rfl, rfl, rfl⟩

set_option maxRecDepth 10000 in
set_option maxHeartbeats 1000000 in
/-- Witness for C3 amended at a concrete stdout carrying `encode` and
`inverse` keys only. -/
theorem c3_amended_witness :
    (parse_output "(1, 2, 3, 4, 5)\nTimes (ms): encode=2.5 inverse=1.5" =
      .ok ⟨1, 2, 3, 4, 5, some (5/2), none, none, none, none, some (3/2)⟩) ∧
    (∃ kvs, timesOf (cleanedOf (("(1, 2, 3, 4, 5)\nTimes (ms): encode=2.5 inverse=1.5" : String).trim.splitOn "\n")) = .ok kvs ∧
      (⟨1, 2, 3, 4, 5, some (5/2), none, none, none, none, some (3/2)⟩ : ParseOut).encode_ms = lookupLast kvs "encode" ∧
      (⟨1, 2, 3, 4, 5, some (5/2), none, none, none, none, some (3/2)⟩ : ParseOut).quant_ms = lookupLast kvs "quant" ∧
      (⟨1, 2, 3, 4, 5, some (5/2), none, none, none, none, some (3/2)⟩ : ParseOut).entropy_enc_ms = lookupLast kvs "entropy_enc" ∧
      (⟨1, 2, 3, 4, 5, some (5/2), none, none, none, none, some (3/2)⟩ : ParseOut).entropy_dec_ms = lookupLast kvs "entropy_dec" ∧
      (⟨1, 2, 3, 4, 5, some (5/2), none, none, none, none, some (3/2)⟩ : ParseOut).dequant_ms = lookupLast kvs "dequant" ∧
      (⟨1, 2, 3, 4, 5, some (5/2), none, none, none, none, some (3/2)⟩ : ParseOut).inverse_ms = lookupLast kvs "inverse") :=
  ⟨by with_unfolding_all decide,
   c3_amended "(1, 2, 3, 4, 5)\nTimes (ms): encode=2.5 inverse=1.5" _
     (by with_unfolding_all decide)⟩

/- ---------------------------------------------------------------- -/
/- C9: tolerance of extra log lines around the tuple line            -/
/- ---------------------------------------------------------------- -/

theorem foldl_lastWith_all_false {α : Type} {p : α → Bool} {l : List α}
    (h : ∀ x ∈ l, p x = false) (acc : Option α) :
    l.foldl (fun acc x => if p x then some x else acc) acc = acc := by
  induction l generalizing acc with
  | nil => rfl
  | cons a t ih =>
    have ha : p a = false := h a (by simp)
    simp only [List.foldl_cons, ha, Bool.false_eq_true, if_false]
    exact ih (fun x hx => h x (by simp [hx])) acc

theorem lastWith_append_last {α : Type} {p : α → Bool} {A B : List α} {t : α}
    (hpt : p t = true) (hB : ∀ x ∈ B, p x = false) :
    lastWith p (A ++ t :: B) = some t := by
  unfold lastWith
  rw [List.foldl_append]
  simp only [List.foldl_cons, hpt, if_pos]
  exact foldl_lastWith_all_false hB _

theorem parenLine_not_empty {s : String} (h : isParenLine s = true) : s.isEmpty = false := by
  by_contra hne
  have hemp : s.isEmpty = true := by
    cases he : s.isEmpty
    · exact absurd he hne
    · rfl
  have hs : s = "" := (String.isEmpty_iff s).mp hemp
  subst hs
  have hf : isParenLine "" = false := by with_unfolding_all decide
  rw [hf] at h
  exact absurd h (by simp)

theorem mem_cleanedOf {x : String} {l : List String} (hx : x ∈ cleanedOf l) :
    ∃ y ∈ l, x = y.trim := by
  unfold cleanedOf at hx
  obtain ⟨hmem, -⟩ := List.mem_filter.mp hx
  obtain ⟨y, hy, hxy⟩ := List.mem_map.mp hmem
  exact ⟨y, hy, hxy.symm⟩

/-- C9 amended: the chunked variant's parser ignores any log lines before
or after the tuple line (none of which is itself parenthesized, and whose
timing line, if any, parses) and recovers the tuple's five values; the
full variant instead fails whenever anything besides the tuple is present
(see the counterexample). -/
theorem c9_amended :
    ∀ (output : String) (pre post : List String) (t : String) (a b c d e : ℚ),
      (∀ l ∈ pre ++ post, isParenLine l.trim = false) →
      isParenLine t.trim = true →
      parseTuple t.trim = .ok (a, b, c, d, e) →
      (timesOf (cleanedOf (pre ++ t :: post))).isOk = true →
      ∃ r, parseCore output (pre ++ t :: post) = .ok r ∧
        r.mse = a ∧ r.psnr = b ∧ r.original_entropy = c ∧
        r.transformed_entropy = d ∧ r.quantized_entropy = e := by
  intro output pre post t a b c d e hnp hpt hok htm
  have hclean : cleanedOf (pre ++ t :: post) = cleanedOf pre ++ t.trim :: cleanedOf post := by
    unfold cleanedOf
    simp only [List.map_append, List.map_cons, List.filter_append, List.filter_cons,
      parenLine_not_empty hpt, Bool.not_false, if_pos]
  have hfind : findTupleLine output (cleanedOf (pre ++ t :: post)) = some t.trim := by
    unfold findTupleLine
    rw [hclean, lastWith_append_last hpt]
    intro x hx
    obtain ⟨y, hy, hxy⟩ := mem_cleanedOf hx
    subst hxy
    exact hnp y (List.mem_append.mpr (Or.inr hy))
  obtain ⟨kvs, hkvs⟩ : ∃ kvs, timesOf (cleanedOf (pre ++ t :: post)) = .ok kvs := by
    cases htm' : timesOf (cleanedOf (pre ++ t :: post)) with
    | ok k => exact ⟨k, rfl⟩
    | error e2 =>
      rw [htm'] at htm
      exact absurd htm (by simp [Except.isOk, Except.toBool])
  unfold parseCore
  simp only [hfind, hok, hkvs]
  exact ⟨_, rfl, rfl, rfl, rfl, rfl, rfl⟩

set_option maxRecDepth 10000 in
set_option maxHeartbeats 1000000 in
/-- C9 counterexample: the full variant's parse rejects a stdout in which
a well-formed 6-field tuple line is accompanied by a preceding log line,
because the whole stripped stdout must be the tuple. -/
theorem c9_counterexample :
    (parseFull "Processing image 1.png\n(1, 2, 3, 4, 5, 6)").isOk = false := by
  with_unfolding_all decide

set_option maxRecDepth 10000 in
set_option maxHeartbeats 1000000 in
/-- Witness for C9 amended: a tuple line surrounded by two log lines. -/
theorem c9_amended_witness :
    (∀ l ∈ ["Processing image 1", "done."], isParenLine l.trim = false) ∧
    (isParenLine (" (1, 2, 3, 4.5, 5) " : String).trim = true) ∧
    (parseTuple (" (1, 2, 3, 4.5, 5) " : String).trim = .ok (1, 2, 3, 9/2, 5)) ∧
    ((timesOf (cleanedOf (["Processing image 1"] ++ " (1, 2, 3, 4.5, 5) " :: ["done."]))).isOk = true) ∧
    (∃ r, parseCore "ignored" (["Processing image 1"] ++ " (1, 2, 3, 4.5, 5) " :: ["done."]) = .ok r ∧
      r.mse = 1 ∧ r.psnr = 2 ∧ r.original_entropy = 3 ∧
      r.transformed_entropy = 9/2 ∧ r.quantized_entropy = 5) :=
  ⟨by with_unfolding_all decide, by with_unfolding_all decide,
   by with_unfolding_all decide, by with_unfolding_all decide,
   c9_amended "ignored" ["Processing image 1"] ["done."] " (1, 2, 3, 4.5, 5) " 1 2 3 (9/2) 5
     (by with_unfolding_all decide) (by with_unfolding_all decide)
     (by with_unfolding_all decide) (by with_unfolding_all decide)⟩

/- ---------------------------------------------------------------- -/
/- C1: error records and the metrics/error dichotomy                 -/
/- ---------------------------------------------------------------- -/

/-- C1 counterexample: in the full variant a non-zero exit yields a
record whose six metric fields are all nan — present, not absent — and
the record type carries no error field at all. -/
theorem c1_counterexample :
    process_image ⟨"Datasets/A/1.png", "SP", 10⟩ (.completed 1 "" "boom") =
      ⟨"Datasets/A/1.png", "SP", 10, [.nan, .nan, .nan, .nan, .nan, .nan]⟩ ∧
    PFloat.nan ∈ (process_image ⟨"Datasets/A/1.png", "SP", 10⟩ (.completed 1 "" "boom")).metrics := by
  with_unfolding_all decide

/-- C1 amended: in the chunked variant a non-zero exit, timeout or other
exception yields a record with `error` populated and every metric field
absent, and every record satisfies the all-or-nothing dichotomy between
core metrics and `error`; in the full variant any failure yields the
six-`nan` metric tuple instead (there is no error field). -/
theorem c1_amended :
    (∀ t cs img code out err, code ≠ 0 →
      run_pipeline t cs img (.completed code out err) =
        ⟨parentName img, img, t, none, none, none, none, none,
         none, none, none, none, none, none, some err.trim⟩) ∧
    (∀ t cs img, run_pipeline t cs img .timedOut =
        ⟨parentName img, img, t, none, none, none, none, none,
         none, none, none, none, none, none, some "Timeout"⟩) ∧
    (∀ t cs img msg, run_pipeline t cs img (.raised msg) =
        ⟨parentName img, img, t, none, none, none, none, none,
         none, none, none, none, none, none, some msg⟩) ∧
    (∀ t cs img outcome,
      ((run_pipeline t cs img outcome).error.isSome = true ∧
        (run_pipeline t cs img outcome).mse = none ∧
        (run_pipeline t cs img outcome).psnr = none ∧
        (run_pipeline t cs img outcome).original_entropy = none ∧
        (run_pipeline t cs img outcome).transformed_entropy = none ∧
        (run_pipeline t cs img outcome).quantized_entropy = none) ∨
      ((run_pipeline t cs img outcome).error = none ∧
        (run_pipeline t cs img outcome).mse.isSome = true ∧
        (run_pipeline t cs img outcome).psnr.isSome = true ∧
        (run_pipeline t cs img outcome).original_entropy.isSome = true ∧
        (run_pipeline t cs img outcome).transformed_entropy.isSome = true ∧
        (run_pipeline t cs img outcome).quantized_entropy.isSome = true)) ∧
    (∀ tk outF, fullFails outF = true →
      (process_image tk outF).metrics = List.replicate 6 PFloat.nan) := by
  refine ⟨?_, ?_, ?_, ?_, ?_⟩
  · intro t cs img code out err h
    simp only [run_pipeline, if_pos h]
  · intro t cs img
    rfl
  · intro t cs img msg
    rfl
  · intro t cs img outcome
    cases outcome with
    | completed code out err =>
      by_cases hc : code = 0
      · subst hc
        simp only [run_pipeline, ne_eq, not_true_eq_false, if_false]
        cases hp : parse_output out.trim with
        | ok pr => right; simp
        | error e => left; simp
      · left
        simp only [run_pipeline, if_pos hc]
        simp
    | timedOut => left; simp [run_pipeline]
    | raised msg => left; simp [run_pipeline]
  · intro tk outF h
    cases outF with
    | completed code out err =>
      unfold fullFails at h
      by_cases hc : code = 0
      · subst hc
        simp only [ne_eq, not_true_eq_false, decide_False, Bool.false_or] at h
        cases hp : parseFull out with
        | ok vals => rw [hp] at h; exact absurd h (by simp)
        | error e => simp only [process_image, ne_eq, not_true_eq_false, if_false, hp]
      · simp only [process_image, if_pos hc]
    | timedOut => rfl
    | raised msg => rfl

/-- Witness for C1 amended: a non-zero exit in the chunked variant and a
timeout in the full variant. -/
theorem c1_amended_witness :
    ((1 : ℤ) ≠ 0) ∧
    (run_pipeline "SP" 512 "Datasets/A/1.png" (.completed 1 "out" " boom ") =
      ⟨parentName "Datasets/A/1.png", "Datasets/A/1.png", "SP", none, none, none, none, none,
       none, none, none, none, none, none, some (" boom " : String).trim⟩) ∧
    (fullFails .timedOut = true) ∧
    ((process_image ⟨"Datasets/B/2.png", "HAAR", 20⟩ .timedOut).metrics =
      List.replicate 6 PFloat.nan) :=
  ⟨by decide,
   c1_amended.1 "SP" 512 "Datasets/A/1.png" 1 "out" " boom " (by decide),
   by decide,
   c1_amended.2.2.2.2 ⟨"Datasets/B/2.png", "HAAR", 20⟩ .timedOut (by decide)⟩

/- ---------------------------------------------------------------- -/
/- C5: failures become records, the batch never aborts               -/
/- ---------------------------------------------------------------- -/

/-- C5: every failing invocation or parse in the chunked variant
produces a record that carries the task's identity fields and a populated
`error`; a future whose `result()` raises is also converted to such a
record; and the scheduler always returns exactly one record per completed
task of each transform, so no failure ever aborts the batch. -/
theorem c5_failure_isolation :
    (∀ t cs img outcome, chunkFails outcome = true →
      (run_pipeline t cs img outcome).error.isSome = true ∧
      (run_pipeline t cs img outcome).dataset = parentName img ∧
      (run_pipeline t cs img outcome).image_path = img ∧
      (run_pipeline t cs img outcome).transform = t) ∧
    (∀ tk e, collectOne tk (.error e) =
      ⟨tk.dataset, tk.image_path, tk.transform, none, none, none, none, none,
       none, none, none, none, none, none, some e⟩) ∧
    (∀ co fut t, (resultsFor co fut t).length =
      (co.filter (fun tk => tk.transform == t)).length) := by
  refine ⟨?_, ?_, ?_⟩
  · intro t cs img outcome h
    cases outcome with
    | completed code out err =>
      by_cases hc : code = 0
      · subst hc
        unfold chunkFails at h
        simp only [ne_eq, not_true_eq_false, decide_False, Bool.false_or] at h
        cases hp : parse_output out.trim with
        | ok pr => rw [hp] at h; exact absurd h (by simp)
        | error e =>
          simp only [run_pipeline, ne_eq, not_true_eq_false, if_false, hp]
          simp
      · simp only [run_pipeline, if_pos hc]
        simp
    | timedOut => simp [run_pipeline]
    | raised msg => simp [run_pipeline]
  · intro tk e
    rfl
  · intro co fut t
    simp [resultsFor]

/-- Witness for C5 at a concrete timed-out task. -/
theorem c5_failure_isolation_witness :
    (chunkFails .timedOut = true) ∧
    ((run_pipeline "SP" 512 "Datasets/A/1.png" .timedOut).error.isSome = true ∧
     (run_pipeline "SP" 512 "Datasets/A/1.png" .timedOut).dataset = parentName "Datasets/A/1.png" ∧
     (run_pipeline "SP" 512 "Datasets/A/1.png" .timedOut).image_path = "Datasets/A/1.png" ∧
     (run_pipeline "SP" 512 "Datasets/A/1.png" .timedOut).transform = "SP") :=
  ⟨by decide, c5_failure_isolation.1 "SP" 512 "Datasets/A/1.png" .timedOut (by decide)⟩

/- ---------------------------------------------------------------- -/
/- C4: one output row per enumerated task                            -/
/- ---------------------------------------------------------------- -/

theorem length_flatMap_const {α β : Type} (l : List α) (f : α → List β) (k : ℕ)
    (hf : ∀ a, (f a).length = k) : (l.flatMap f).length = l.length * k := by
  induction l with
  | nil => simp
  | cons a t ih =>
    simp only [List.flatMap_cons, List.length_append, ih, hf, List.length_cons]
    ring

/-- C4: whatever order tasks complete in, the chunked variant collects
exactly `|images|` records per transform (so `2 x |images|` data rows in
total), and the full variant enumerates `|images| x |transforms| x
|scales|` tasks and emits exactly one row per task. -/
theorem c4_row_counts :
    (∀ images (fut : ChunkTask → Except String ChunkRecord) co, co.Perm (mkTasks images) →
      (resultsFor co fut "SP").length = images.length ∧
      (resultsFor co fut "HAAR").length = images.length) ∧
    (∀ imgs ts ss tasks, create_tasks imgs ts ss = .ok tasks →
      tasks.length = imgs.length * (ts.length * ss.length)) ∧
    (∀ (tasks : List FullTask) (fout : FullTask → InvocationOutcome),
      (tasks.map (fun tk => process_image tk (fout tk))).length = tasks.length) := by
  refine ⟨?_, ?_, ?_⟩
  · intro images fut co hperm
    have key : ∀ t, (resultsFor co fut t).length =
        List.countP (fun tk => tk.transform == t) (mkTasks images) := by
      intro t
      rw [resultsFor, List.length_map, ← List.countP_eq_length_filter]
      exact hperm.countP_eq _
    constructor
    · rw [key "SP"]
      simp only [mkTasks, TRANSFORMS, List.flatMap_cons, List.flatMap_nil,
        List.append_nil, List.countP_append, List.countP_map]
      have e1 : List.countP
          ((fun tk : ChunkTask => tk.transform == "SP") ∘
            fun di : String × String => (⟨"SP", di.1, di.2⟩ : ChunkTask)) images =
          images.length :=
        List.countP_eq_length.mpr
          (fun a _ => show (("SP" : String) == "SP") = true by with_unfolding_all decide)
      have e2 : List.countP
          ((fun tk : ChunkTask => tk.transform == "SP") ∘
            fun di : String × String => (⟨"HAAR", di.1, di.2⟩ : ChunkTask)) images = 0 :=
        List.countP_eq_zero.mpr
          (fun a _ => show ¬(("HAAR" : String) == "SP") = true by with_unfolding_all decide)
      rw [e1, e2]
      exact Nat.add_zero _
    · rw [key "HAAR"]
      simp only [mkTasks, TRANSFORMS, List.flatMap_cons, List.flatMap_nil,
        List.append_nil, List.countP_append, List.countP_map]
      have e1 : List.countP
          ((fun tk : ChunkTask => tk.transform == "HAAR") ∘
            fun di : String × String => (⟨"SP", di.1, di.2⟩ : ChunkTask)) images = 0 :=
        List.countP_eq_zero.mpr
          (fun a _ => show ¬(("SP" : String) == "HAAR") = true by with_unfolding_all decide)
      have e2 : List.countP
          ((fun tk : ChunkTask => tk.transform == "HAAR") ∘
            fun di : String × String => (⟨"HAAR", di.1, di.2⟩ : ChunkTask)) images =
          images.length :=
        List.countP_eq_length.mpr
          (fun a _ => show (("HAAR" : String) == "HAAR") = true by with_unfolding_all decide)
      rw [e1, e2]
      exact Nat.zero_add _
  · intro imgs ts ss tasks h
    unfold create_tasks at h
    cases he : imgs.isEmpty with
    | true => rw [he] at h; exact absurd h (by simp)
    | false =>
      rw [he] at h
      simp only [Bool.false_eq_true, if_false, Except.ok.injEq] at h
      subst h
      rw [length_flatMap_const _ _ (ts.length * ss.length)]
      intro i
      rw [length_flatMap_const _ _ ss.length]
      intro t
      exact List.length_map _ _
  · intro tasks fout
    exact List.length_map _ _

/-- Witness for C4: two images under two transforms, completing in
reverse order, and a 1x2x2 full-variant grid. -/
theorem c4_row_counts_witness :
    ((mkTasks [("d", "Datasets/d/a.png"), ("d", "Datasets/d/b.png")]).reverse.Perm
      (mkTasks [("d", "Datasets/d/a.png"), ("d", "Datasets/d/b.png")])) ∧
    ((resultsFor (mkTasks [("d", "Datasets/d/a.png"), ("d", "Datasets/d/b.png")]).reverse
        (fun _ => .error "crash") "SP").length =
      ([("d", "Datasets/d/a.png"), ("d", "Datasets/d/b.png")] : List (String × String)).length ∧
     (resultsFor (mkTasks [("d", "Datasets/d/a.png"), ("d", "Datasets/d/b.png")]).reverse
        (fun _ => .error "crash") "HAAR").length =
      ([("d", "Datasets/d/a.png"), ("d", "Datasets/d/b.png")] : List (String × String)).length) ∧
    (create_tasks ["Datasets/a.png"] ["SP", "HAAR"] [1, 2] =
      .ok [⟨"Datasets/a.png", "SP", 1⟩, ⟨"Datasets/a.png", "SP", 2⟩,
           ⟨"Datasets/a.png", "HAAR", 1⟩, ⟨"Datasets/a.png", "HAAR", 2⟩]) ∧
    (([⟨"Datasets/a.png", "SP", 1⟩, ⟨"Datasets/a.png", "SP", 2⟩,
       ⟨"Datasets/a.png", "HAAR", 1⟩, ⟨"Datasets/a.png", "HAAR", 2⟩] : List FullTask).length =
      (["Datasets/a.png"] : List String).length *
        ((["SP", "HAAR"] : List String).length * (([1, 2] : List ℤ)).length)) :=
  ⟨List.reverse_perm _,
   c4_row_counts.1 [("d", "Datasets/d/a.png"), ("d", "Datasets/d/b.png")]
     (fun _ => .error "crash") _ (List.reverse_perm _),
   by with_unfolding_all decide,
   c4_row_counts.2.1 ["Datasets/a.png"] ["SP", "HAAR"] [1, 2] _
     (by with_unfolding_all decide)⟩

/- ---------------------------------------------------------------- -/
/- C6: aggregation order and sorting                                 -/
/- ---------------------------------------------------------------- -/

theorem sorted_perm_eq {α : Type} {le : α → α → Prop} :
    ∀ {l₁ l₂ : List α}, l₁.Perm l₂ → l₁.Sorted le → l₂.Sorted le →
      (∀ a ∈ l₁, ∀ b ∈ l₁, le a b → le b a → a = b) → l₁ = l₂ := by
  intro l₁
  induction l₁ with
  | nil =>
    intro l₂ hp _ _ _
    exact hp.nil_eq
  | cons a t ih =>
    intro l₂ hp hs₁ hs₂ hanti
    cases l₂ with
    | nil => exact absurd hp.symm.nil_eq (by simp)
    | cons b t₂ =>
      have hab : a = b := by
        have ha2 : a ∈ b :: t₂ := hp.mem_iff.mp (List.mem_cons_self a t)
        have hb1 : b ∈ a :: t := hp.mem_iff.mpr (List.mem_cons_self b t₂)
        rcases List.mem_cons.mp ha2 with h | ha2'
        · exact h
        rcases List.mem_cons.mp hb1 with h | hb1'
        · exact h.symm
        have h1 : le a b := (List.sorted_cons.mp hs₁).1 b hb1'
        have h2 : le b a := (List.sorted_cons.mp hs₂).1 a ha2'
        exact hanti a (List.mem_cons_self a t) b hb1 h1 h2
      subst hab
      have ht : t = t₂ := ih hp.cons_inv (List.sorted_cons.mp hs₁).2 (List.sorted_cons.mp hs₂).2
        (fun x hx y hy => hanti x (List.mem_cons_of_mem a hx) y (List.mem_cons_of_mem a hy))
      rw [ht]

theorem pySortRecords_perm {l l' : List ChunkRecord} (hp : l.Perm l')
    (hnd : (l.map chunkKey).Nodup) : pySortRecords l = pySortRecords l' := by
  apply sorted_perm_eq
  · exact (List.perm_insertionSort recordLe l).trans
      (hp.trans (List.perm_insertionSort recordLe l').symm)
  · exact List.sorted_insertionSort recordLe l
  · exact List.sorted_insertionSort recordLe l'
  · intro a ha b hb h1 h2
    have ha' : a ∈ l := (List.perm_insertionSort recordLe l).subset ha
    have hb' : b ∈ l := (List.perm_insertionSort recordLe l).subset hb
    exact List.inj_on_of_nodup_map hnd ha' hb' (strPairLe_antisymm h1 h2)

/-- C6 amended: the chunked variant sorts each per-transform result list
by `(dataset, image_path)` before writing, so over records with pairwise
distinct keys any permutation of the result set produces byte-identical
CSV output; the full variant's writer performs no sort (see the
counterexample). -/
theorem c6_amended :
    ∀ l l' : List ChunkRecord, l.Perm l' → (l.map chunkKey).Nodup →
      renderCSV (write_chunk_csv l) = renderCSV (write_chunk_csv l') := by
  intro l l' hp hnd
  unfold write_chunk_csv
  rw [pySortRecords_perm hp hnd]

set_option maxRecDepth 10000 in
/-- C6 counterexample: the full variant writes rows in the order the
result list arrives, so reversing a two-record result set changes the
bytes of the output — the aggregator does not sort. -/
theorem c6_counterexample :
    renderCSV (write_full_csv
      [⟨"Datasets/B/2.png", "SP", 10, List.replicate 6 PFloat.nan⟩,
       ⟨"Datasets/A/1.png", "HAAR", 20, List.replicate 6 (PFloat.num 1)⟩]) ≠
    renderCSV (write_full_csv
      [⟨"Datasets/A/1.png", "HAAR", 20, List.replicate 6 (PFloat.num 1)⟩,
       ⟨"Datasets/B/2.png", "SP", 10, List.replicate 6 PFloat.nan⟩]) := by
  with_unfolding_all decide

/-- Witness for C6 amended: two records with distinct keys written in
both orders. -/
theorem c6_amended_witness :
    (([⟨"B", "Datasets/B/2.png", "SP", some 1, some 2, some 3, some 4, some 5,
        none, none, none, none, none, none, none⟩,
       ⟨"A", "Datasets/A/1.png", "SP", none, none, none, none, none,
        none, none, none, none, none, none, some "Timeout"⟩] : List ChunkRecord).Perm
      ([⟨"B", "Datasets/B/2.png", "SP", some 1, some 2, some 3, some 4, some 5,
         none, none, none, none, none, none, none⟩,
        ⟨"A", "Datasets/A/1.png", "SP", none, none, none, none, none,
         none, none, none, none, none, none, some "Timeout"⟩] : List ChunkRecord).reverse) ∧
    ((([⟨"B", "Datasets/B/2.png", "SP", some 1, some 2, some 3, some 4, some 5,
         none, none, none, none, none, none, none⟩,
        ⟨"A", "Datasets/A/1.png", "SP", none, none, none, none, none,
         none, none, none, none, none, none, some "Timeout"⟩] : List ChunkRecord).map chunkKey).Nodup) ∧
    (renderCSV (write_chunk_csv
      [⟨"B", "Datasets/B/2.png", "SP", some 1, some 2, some 3, some 4, some 5,
        none, none, none, none, none, none, none⟩,
       ⟨"A", "Datasets/A/1.png", "SP", none, none, none, none, none,
        none, none, none, none, none, none, some "Timeout"⟩]) =
     renderCSV (write_chunk_csv
      ([⟨"B", "Datasets/B/2.png", "SP", some 1, some 2, some 3, some 4, some 5,
         none, none, none, none, none, none, none⟩,
        ⟨"A", "Datasets/A/1.png", "SP", none, none, none, none, none,
         none, none, none, none, none, none, some "Timeout"⟩] : List ChunkRecord).reverse)) :=
  ⟨(List.reverse_perm _).symm, by with_unfolding_all decide,
   c6_amended _ _ (List.reverse_perm _).symm (by with_unfolding_all decide)⟩

/- ---------------------------------------------------------------- -/
/- C8: catalog scan on a missing or empty dataset root               -/
/- ---------------------------------------------------------------- -/

/-- C8 amended: a missing dataset root makes `find_all_images` print a
diagnostic and return the empty catalog — it raises nothing — and the
caller's empty-catalog gate then aborts the run before any task is
built; a dataset subdirectory with no images merely contributes nothing;
in the full variant an overall image-less root raises
`FileNotFoundError` from `create_tasks`. -/
theorem c8_amended :
    (∀ fs : ChunkFS, fs.rootExists = false → find_all_images fs = []) ∧
    (∀ fs : ChunkFS, find_all_images fs = [] →
      mainCatalogGate fs = .error "No images found. Exiting.") ∧
    (∀ name rest, find_all_images ⟨true, (name, []) :: rest⟩ = find_all_images ⟨true, rest⟩) ∧
    (∀ ts ss, ∃ e, create_tasks [] ts ss = .error e) := by
  refine ⟨?_, ?_, ?_, ?_⟩
  · intro fs h
    unfold find_all_images
    rw [h]
    simp
  · intro fs h
    unfold mainCatalogGate
    simp only [h, List.length_nil, if_pos]
  · intro name rest
    unfold find_all_images
    simp [List.flatMap_cons]
  · intro ts ss
    exact ⟨_, rfl⟩

set_option maxRecDepth 10000 in
/-- C8 counterexample: on a filesystem whose dataset root is missing the
catalog operation does not fail with any error — it returns the normal
empty catalog, indistinguishable from an existing-but-empty root, and
only the caller's generic "no images" gate makes the run fatal. -/
theorem c8_counterexample :
    find_all_images ⟨false, [("Kodak", ["Datasets/Kodak/1.png"])]⟩ = [] ∧
    find_all_images ⟨true, []⟩ = [] ∧
    mainCatalogGate ⟨false, [("Kodak", ["Datasets/Kodak/1.png"])]⟩ =
      .error "No images found. Exiting." := by
  with_unfolding_all decide

/-- Witness for C8 amended at a concrete missing-root filesystem. -/
theorem c8_amended_witness :
    ((⟨false, [("X", ["Datasets/X/9.png"])]⟩ : ChunkFS).rootExists = false) ∧
    (find_all_images ⟨false, [("X", ["Datasets/X/9.png"])]⟩ = []) ∧
    (mainCatalogGate ⟨false, [("X", ["Datasets/X/9.png"])]⟩ =
      .error "No images found. Exiting.") ∧
    (∃ e, create_tasks ([] : List String) ["SP"] [1] = .error e) :=
  ⟨rfl,
   c8_amended.1 ⟨false, [("X", ["Datasets/X/9.png"])]⟩ rfl,
   c8_amended.2.1 ⟨false, [("X", ["Datasets/X/9.png"])]⟩
     (c8_amended.1 ⟨false, [("X", ["Datasets/X/9.png"])]⟩ rfl),
   c8_amended.2.2.2 ["SP"] [1]⟩
